import Mathlib

/-!
Verification of the TMOJ-Database data-access layer.

The definitions below are a shallow embedding of the repository's DAO layer
(`src/models/daos/*.ts`) over an explicit in-memory document store.  Stored
documents mirror the mongoose schemas in `models.ts` (the schema revision
matching the current DAOs additionally carries the denormalized fields the
DAOs write, per the persisted-layout description); query composition mirrors
the `filterQuery` functions; relationship expansion mirrors the
`documentToContest` / `documentToCollection` / `fromObject` functions.
MongoDB behaviour relied on: `find` keeps insertion order, conditions are
ANDed, `$in` is list membership, range operators use type bracketing (a
`$gte`/`$lte` condition with a concrete bound never matches a document that
lacks the field, and an empty condition object only matches a literal empty
document), filters are applied before sort, skip and limit, and
`findOneAndUpdate` without `new: true` returns the pre-update document.
-/

/-- A BSON value as far as sorting and filtering here needs: `Null`, numbers
(dates are modelled as integer timestamps) and strings.  MongoDB orders
`Null` below numbers and numbers below strings. -/
inductive BsonValue
  | null
  | int (i : Int)
  | str (s : String)
  deriving DecidableEq

/-- BSON comparison order restricted to the three value kinds used here. -/
def BsonValue.le : BsonValue → BsonValue → Bool
  | .null, _ => true
  | _, .null => false
  | .int a, .int b => decide (a ≤ b)
  | .int _, .str _ => true
  | .str _, .int _ => false
  | .str a, .str b => decide (a ≤ b)

/-- One `{field, ascending}` entry of a `sortFields` list (the option classes
in `contest.ts`, `collection.ts`, `problem.ts`, `submission.ts`). -/
structure SortDirective where
  field : String
  ascending : Bool
  deriving DecidableEq

/-- Comparison under one sort directive: mongoose maps `ascending` to `1` and
descending to `-1` on the sort condition object. -/
def directiveLE (ascending : Bool) (x y : BsonValue) : Bool :=
  if ascending then x.le y else y.le x

/-- The ordering induced by a `sortFields` list: directives are applied in the
given order, later directives break ties of earlier ones.  `fieldOf` reads a
named field off a document (`.null` for a field the document lacks). -/
def sortFieldsLE (fieldOf : String → α → BsonValue) :
    List SortDirective → α → α → Bool
  | [], _, _ => true
  | d :: rest, a, b =>
    let x := fieldOf d.field a
    let y := fieldOf d.field b
    if x = y then sortFieldsLE fieldOf rest a b else directiveLE d.ascending x y

/-- An inclusive range condition built the way every `filterQuery` builds it:
a `$gte` entry when the low bound is non-null and a `$lte` entry when the
high bound is non-null.  A document that lacks the field (`none` value) never
matches either operator, nor the empty condition object produced when both
bounds are null (that one only matches a literal empty document). -/
def rangeMatches : Option (Option Int × Option Int) → Option Int → Bool
  | none, _ => true
  | some (lo, hi), v =>
    match v with
    | none => false
    | some x =>
      match lo, hi with
      | none, none => false
      | _, _ =>
        (match lo with | none => true | some l => decide (l ≤ x)) &&
        (match hi with | none => true | some h => decide (x ≤ h))

/-- Sorting stage: the query sets a sort condition only when `sortFields` is
non-null.  MongoDB does not pin the relative order of ties; the embedding
fixes one sorted permutation via insertion sort. -/
def sortStage (fieldOf : String → α → BsonValue) :
    Option (List SortDirective) → List α → List α
  | none, l => l
  | some dirs, l => List.insertionSort (fun a b => sortFieldsLE fieldOf dirs a b = true) l

/-- Skip stage: the query only sets a skip when `startIndex !== 0`. -/
def skipStage (startIndex : Nat) (l : List α) : List α :=
  if startIndex ≠ 0 then l.drop startIndex else l

/-- Limit stage: the query only sets a limit when `itemCount !== null`. -/
def limitStage : Option Nat → List α → List α
  | none, l => l
  | some n, l => l.take n

/-- The tail of every `filterQuery`: the store applies the sort condition,
then skip, then limit. -/
def applySortSkipLimit (fieldOf : String → α → BsonValue)
    (sortFields : Option (List SortDirective)) (startIndex : Nat)
    (itemCount : Option Nat) (l : List α) : List α :=
  limitStage itemCount (skipStage startIndex (sortStage fieldOf sortFields l))

/-- Replace the first element satisfying `p` (what `findOneAndUpdate` /
`$set` does to the single matched document). -/
def replaceFirst (p : α → Bool) (x : α) : List α → List α
  | [] => []
  | a :: rest => if p a then x :: rest else a :: replaceFirst p x rest

/-- `$addToSet`: append the element unless it is already a member. -/
def addToSet (x : Nat) (l : List Nat) : List Nat :=
  if l.contains x then l else l ++ [x]

/-! ## Stored documents

One structure per mongoose schema (`models.ts`).  `oid` stands for the
internal `_id`; dates are integer timestamps.  The denormalized fields the
current DAOs write and filter on (`authorUsername`, `problemId`, `contestId`
and `result` on submissions; `creationDate` on problems and collections) are
included per the persisted-layout description, since the schema revision
declaring them is not among the sources. -/

/-- A stored user document (`userSchema`). -/
structure UserDoc where
  oid : Nat
  username : String
  displayName : String
  deriving DecidableEq

/-- A stored authentication-detail document (`authenticationDetailSchema`).
The value is stored hashed for the `Password` method; hashing is an external
collaborator and the embedding keeps the stored string opaque. -/
structure AuthenticationDetailDoc where
  oid : Nat
  ofUserId : Nat
  method : String
  value : String
  deriving DecidableEq

/-- A stored test-case document (`testCaseSchema`). -/
structure TestCaseDoc where
  oid : Nat
  testCaseId : String
  inputFile : String
  outputFile : String
  isPretest : Bool
  isHidden : Bool
  score : Int
  deriving DecidableEq

/-- A stored problem document (`problemSchema`); `testCases` holds `_id`
references into the test-case collection. -/
structure ProblemDoc where
  oid : Nat
  problemId : String
  author : Nat
  authorUsername : String
  displayName : String
  creationDate : Option Int
  isPublic : Bool
  timeLimit : Int
  memoryLimit : Int
  inputSource : String
  outputSource : String
  checker : String
  testCases : List Nat
  deriving DecidableEq

/-- A stored contest document (`contestSchema`); `problems` and
`participants` hold `_id` references; announcements are a virtual reverse
relation keyed on `ofContestId`. -/
structure ContestDoc where
  oid : Nat
  contestId : String
  organizer : Nat
  organizerUsername : String
  displayName : String
  format : String
  startTime : Int
  duration : Int
  description : String
  isPublic : Bool
  problems : List Nat
  participants : List Nat
  deriving DecidableEq

/-- A stored announcement document (`announcementSchema`). -/
structure AnnouncementDoc where
  oid : Nat
  announcementId : String
  ofContestId : Nat
  timestamp : Int
  subject : String
  content : String
  deriving DecidableEq

/-- The stored `result` subdocument of a submission (`SubmissionResult` in
`submission.ts`, with the failed test case as an `_id` reference). -/
structure SubmissionResultDoc where
  score : Int
  runTime : Int
  failedTestCase : Option Nat
  actualOutput : String
  log : String
  deriving DecidableEq

/-- A stored submission document, as `SubmissionDao.addSubmission` writes it:
`author`/`problem`/`contest` are `_id` references with the username and the
public ids denormalized alongside.  There is no `creationDate` field. -/
structure SubmissionDoc where
  oid : Nat
  submissionId : String
  author : Nat
  authorUsername : String
  problem : Nat
  problemId : String
  contest : Option Nat
  contestId : Option String
  sourceFile : String
  language : String
  submissionTime : Int
  status : String
  result : Option SubmissionResultDoc
  deriving DecidableEq

/-- A stored collection document (`collectionSchema`). -/
structure CollectionDoc where
  oid : Nat
  collectionId : String
  owner : Nat
  ownerUsername : String
  displayName : String
  creationDate : Int
  description : String
  isPublic : Bool
  problems : List Nat
  deriving DecidableEq

/-- The whole document store: one list per logical collection, in insertion
order. -/
structure Store where
  users : List UserDoc
  authenticationDetails : List AuthenticationDetailDoc
  problems : List ProblemDoc
  testCases : List TestCaseDoc
  contests : List ContestDoc
  announcements : List AnnouncementDoc
  submissions : List SubmissionDoc
  collections : List CollectionDoc
  deriving DecidableEq

/-- The typed not-found errors of `exceptions.ts`, the local error classes of
the `ProblemDao` revision in `problems.ts` (`NoSuchUserError`,
`NoSuchProblemError`, `NoSuchTestCaseError`), the JavaScript `TypeError`
raised by reading `._id` off `null` (which rejects the surrounding promise
like any thrown error), and the rejection mongoose/the store produce for a
query built with an operator no layer implements (`unknownQueryOperator`,
raised when casting the filter fails on the unknown conditional). -/
inductive DaoError
  | userNotFound (username : String)
  | problemNotFound (problemId : String)
  | testCaseNotFound (testCaseId : String)
  | contestNotFound (contestId : String)
  | collectionNotFound (collectionId : String)
  | authenticationDetailNotFound (username : String) (method : String)
  | noSuchUser (username : String)
  | noSuchProblem (problemId : String)
  | noSuchTestCase (testCaseId : String)
  | nullDereference
  | unknownQueryOperator (op : String)
  deriving DecidableEq

/-! ## Filter options

One structure per `*FilterOptions` class, with the class field initializers
as explicit default values.  `none` stands for the JavaScript `null` /
absent field. -/

/-- `ContestFilterOptions` (`contest.ts`).  The class declares `isPublic`
with an array type but `filterQuery` uses it as a single equality condition;
it is modelled as the boolean the sibling option classes declare. -/
structure ContestFilterOptions where
  startIndex : Nat
  itemCount : Option Nat
  organizer : Option (List String)
  format : Option (List String)
  startTime : Option (Option Int × Option Int)
  duration : Option (Option Int × Option Int)
  isPublic : Option Bool
  sortFields : Option (List SortDirective)
  deriving DecidableEq

/-- `new ContestFilterOptions()`: all filters null, `sortFields` defaults to
latest contest first. -/
def defaultContestFilterOptions : ContestFilterOptions :=
  ⟨0, none, none, none, none, none, none, some [⟨"startTime", false⟩]⟩

/-- `CollectionFilterOptions` (`collection.ts`). -/
structure CollectionFilterOptions where
  startIndex : Nat
  itemCount : Option Nat
  owner : Option (List String)
  creationDate : Option (Option Int × Option Int)
  isPublic : Option Bool
  sortFields : Option (List SortDirective)
  deriving DecidableEq

/-- `new CollectionFilterOptions()`: `sortFields` defaults to
`[{field: "creationDate", ascending: false}]`. -/
def defaultCollectionFilterOptions : CollectionFilterOptions :=
  ⟨0, none, none, none, none, some [⟨"creationDate", false⟩]⟩

/-- `ProblemFilterOptions` (`problem.ts`); no list operation uses it in the
sources, its default sort directive is still part of the model. -/
structure ProblemFilterOptions where
  startIndex : Nat
  itemCount : Option Nat
  author : Option (List String)
  creationDate : Option (Option Int × Option Int)
  isPublic : Option Bool
  sortFields : Option (List SortDirective)
  deriving DecidableEq

/-- `new ProblemFilterOptions()`. -/
def defaultProblemFilterOptions : ProblemFilterOptions :=
  ⟨0, none, none, none, none, some [⟨"creationDate", false⟩]⟩

/-- `SubmissionFilterOptions` (`submission.ts`). -/
structure SubmissionFilterOptions where
  startIndex : Nat
  itemCount : Option Nat
  author : Option (List String)
  problem : Option (List String)
  contest : Option (List String)
  language : Option (List String)
  status : Option (List String)
  submissionTime : Option (Option Int × Option Int)
  sortFields : Option (List SortDirective)
  deriving DecidableEq

/-- `new SubmissionFilterOptions()`: `sortFields` defaults to
`[{field: "submissionTime", ascending: false}]`. -/
def defaultSubmissionFilterOptions : SubmissionFilterOptions :=
  ⟨0, none, none, none, none, none, none, none, some [⟨"submissionTime", false⟩]⟩

/-! ## Query composition (the `filterQuery` functions) -/

/-- A `$in` condition: only added when the option is non-null; an empty list
is applied literally and matches nothing. -/
def inCondition (option : Option (List String)) (value : String) : Bool :=
  match option with
  | none => true
  | some l => l.contains value

/-- A `$in` condition over a field the document may lack (`contestId` on
submissions): a missing field only matches when the list contains null,
which no caller-supplied string list does. -/
def inConditionOpt (option : Option (List String)) (value : Option String) : Bool :=
  match option with
  | none => true
  | some l =>
    match value with
    | none => false
    | some v => l.contains v

/-- An equality condition on a boolean field, added only when the option is
neither undefined nor null. -/
def boolCondition (option : Option Bool) (value : Bool) : Bool :=
  match option with
  | none => true
  | some b => value == b

/-- The condition set built by `filterQuery` in `contests.ts`. -/
def contestMatches (o : ContestFilterOptions) (d : ContestDoc) : Bool :=
  inCondition o.organizer d.organizerUsername &&
  inCondition o.format d.format &&
  rangeMatches o.startTime (some d.startTime) &&
  rangeMatches o.duration (some d.duration) &&
  boolCondition o.isPublic d.isPublic

/-- The condition set built by `filterQuery` in the collection DAO. -/
def collectionMatches (o : CollectionFilterOptions) (d : CollectionDoc) : Bool :=
  inCondition o.owner d.ownerUsername &&
  rangeMatches o.creationDate (some d.creationDate) &&
  boolCondition o.isPublic d.isPublic

/-- Submission documents store their time under `submissionTime`, but
`filterQuery` in `submissions.ts` keys the range condition built from
`options.submissionTime` on the field name `creationDate`, which no
submission document carries; the condition therefore reads a missing
field. -/
def SubmissionDoc.creationDateField (_ : SubmissionDoc) : Option Int :=
  none

/-- The condition set built by `filterQuery` in `submissions.ts`. -/
def submissionMatches (o : SubmissionFilterOptions) (d : SubmissionDoc) : Bool :=
  inCondition o.author d.authorUsername &&
  inCondition o.problem d.problemId &&
  inConditionOpt o.contest d.contestId &&
  inCondition o.language d.language &&
  inCondition o.status d.status &&
  rangeMatches o.submissionTime d.creationDateField

/-- Sort-field reader for contest documents. -/
def contestFieldVal (f : String) (d : ContestDoc) : BsonValue :=
  if f = "startTime" then .int d.startTime
  else if f = "duration" then .int d.duration
  else if f = "displayName" then .str d.displayName
  else if f = "organizerUsername" then .str d.organizerUsername
  else if f = "contestId" then .str d.contestId
  else .null

/-- Sort-field reader for collection documents. -/
def collectionFieldVal (f : String) (d : CollectionDoc) : BsonValue :=
  if f = "creationDate" then .int d.creationDate
  else if f = "displayName" then .str d.displayName
  else if f = "ownerUsername" then .str d.ownerUsername
  else if f = "collectionId" then .str d.collectionId
  else .null

/-- Sort-field reader for submission documents (no `creationDate` field). -/
def submissionFieldVal (f : String) (d : SubmissionDoc) : BsonValue :=
  if f = "submissionTime" then .int d.submissionTime
  else if f = "authorUsername" then .str d.authorUsername
  else if f = "problemId" then .str d.problemId
  else if f = "submissionId" then .str d.submissionId
  else .null

/-! ## Relationship expansion (views)

The `fromObject` parsers plus the `delete` statements of the expansion
functions produce the externally visible shapes.  An `Option` field models a
JavaScript field that may have been removed with `delete` (`none` = the
field is absent from the returned object). -/

/-- `User.fromObject` of a populated user document. -/
structure UserView where
  username : String
  displayName : String
  deriving DecidableEq

def userDocToView (u : UserDoc) : UserView :=
  ⟨u.username, u.displayName⟩

/-- `TestCase.fromObject` output.  Each field is optional because the parser
is also applied to unpopulated `_id` references (which are truthy objects
without any of these fields). -/
structure TestCaseView where
  testCaseId : Option String
  inputFile : Option String
  outputFile : Option String
  isHidden : Option Bool
  score : Option Int
  deriving DecidableEq

/-- `TestCase.fromObject` applied to an unpopulated `_id` reference: the
reference is truthy, so the parser builds a test case whose fields are all
undefined. -/
def testCaseRefStub (_ : Nat) : TestCaseView :=
  ⟨none, none, none, none, none⟩

/-- `Problem.fromObject` output; `testCases` is `none` once deleted. -/
structure ProblemView where
  problemId : String
  author : Option UserView
  displayName : String
  creationDate : Option Int
  isPublic : Bool
  timeLimit : Int
  memoryLimit : Int
  inputSource : String
  outputSource : String
  checker : String
  testCases : Option (List TestCaseView)
  deriving DecidableEq

/-- `Problem.fromObject` of a problem document whose `author` was populated
and whose `testCases` were not (the shape `populate({path: "problems",
populate: {path: "author"}})` yields): the `testCases` array still holds the
raw `_id` references, which the parser maps to all-undefined stubs. -/
def problemDocToView (s : Store) (d : ProblemDoc) : ProblemView :=
  ⟨d.problemId, (s.users.find? (fun u => decide (u.oid = d.author))).map userDocToView,
    d.displayName, d.creationDate, d.isPublic, d.timeLimit, d.memoryLimit,
    d.inputSource, d.outputSource, d.checker, some (d.testCases.map testCaseRefStub)⟩

/-- `Announcement.fromObject` output. -/
structure AnnouncementView where
  announcementId : String
  timestamp : Int
  subject : String
  content : String
  deriving DecidableEq

def announcementDocToView (a : AnnouncementDoc) : AnnouncementView :=
  ⟨a.announcementId, a.timestamp, a.subject, a.content⟩

/-- `Contest.fromObject` output after the `delete` statements of
`documentToContest`: a relation not requested is absent (`none`). -/
structure ContestView where
  contestId : String
  organizer : Option UserView
  displayName : String
  format : String
  startTime : Int
  duration : Int
  description : String
  isPublic : Bool
  problems : Option (List ProblemView)
  participants : Option (List UserView)
  announcements : Option (List AnnouncementView)
  deriving DecidableEq

/-- `GetContestOptions` (`contests.ts`), all flags defaulting to false. -/
structure GetContestOptions where
  includeProblems : Bool
  includeParticipants : Bool
  includeAnnouncements : Bool
  deriving DecidableEq

/-- `new GetContestOptions()`. -/
def defaultGetContestOptions : GetContestOptions :=
  ⟨false, false, false⟩

/-- The announcement timestamp reader used by the `populate` sort option
`{timestamp: -1}`. -/
def announcementFieldVal (f : String) (a : AnnouncementDoc) : BsonValue :=
  if f = "timestamp" then .int a.timestamp else .null

/-- `documentToContest`: populate the organizer, populate each requested
relation, parse through `Contest.fromObject`, then `delete` every relation
that was not requested.  Population drops references that no longer
resolve. -/
def documentToContest (s : Store) (d : ContestDoc) (g : GetContestOptions) : ContestView :=
  ⟨d.contestId,
    (s.users.find? (fun u => decide (u.oid = d.organizer))).map userDocToView,
    d.displayName, d.format, d.startTime, d.duration, d.description, d.isPublic,
    if g.includeProblems then
      some ((d.problems.filterMap
        (fun oid => s.problems.find? (fun p => decide (p.oid = oid)))).map (problemDocToView s))
    else none,
    if g.includeParticipants then
      some ((d.participants.filterMap
        (fun oid => s.users.find? (fun u => decide (u.oid = oid)))).map userDocToView)
    else none,
    if g.includeAnnouncements then
      some ((sortStage announcementFieldVal (some [⟨"timestamp", false⟩])
        (s.announcements.filter (fun a => decide (a.ofContestId = d.oid)))).map announcementDocToView)
    else none⟩

/-- `Collection.fromObject` output after the `delete` of
`documentToCollection`. -/
structure CollectionView where
  collectionId : String
  owner : Option UserView
  displayName : String
  creationDate : Int
  description : String
  isPublic : Bool
  problems : Option (List ProblemView)
  deriving DecidableEq

/-- `documentToCollection` (collection DAO): populate the owner and, when
requested, the problems (with their authors); delete `problems`
otherwise. -/
def documentToCollection (s : Store) (d : CollectionDoc) (includeProblems : Bool) :
    CollectionView :=
  ⟨d.collectionId,
    (s.users.find? (fun u => decide (u.oid = d.owner))).map userDocToView,
    d.displayName, d.creationDate, d.description, d.isPublic,
    if includeProblems then
      some ((d.problems.filterMap
        (fun oid => s.problems.find? (fun p => decide (p.oid = oid)))).map (problemDocToView s))
    else none⟩

/-! ## DAO operations -/

/-- The `$or` visibility condition `getContestList`/`getContestListCount`
merge into the query when `asUser` is supplied:
`{$or: [{organizerUsername: asUser}, {isPublic: true}]}`. -/
def contestVisibleTo (asUser : Option String) (d : ContestDoc) : Bool :=
  match asUser with
  | none => true
  | some u => decide (d.organizerUsername = u) || d.isPublic

/-- `ContestDao.getContestList` up to the `documentToContest` mapping: the
document list `query.exec()` yields.  MongoDB applies the merged filter
first, then sort, skip and limit. -/
def ContestDao.getContestListDocs (s : Store) (o : ContestFilterOptions)
    (asUser : Option String) : List ContestDoc :=
  applySortSkipLimit contestFieldVal o.sortFields o.startIndex o.itemCount
    (s.contests.filter (fun d => contestMatches o d && contestVisibleTo asUser d))

/-- `ContestDao.getContestList`: each resulting document expanded per the
get-options (the caller's order is preserved by the mapping). -/
def ContestDao.getContestList (s : Store) (o : ContestFilterOptions)
    (asUser : Option String) (g : GetContestOptions) : List ContestView :=
  (ContestDao.getContestListDocs s o asUser).map (fun d => documentToContest s d g)

/-- `ContestDao.getContest`: `findOne({contestId})`, null when absent,
otherwise expanded per the get-options. -/
def ContestDao.getContest (s : Store) (contestId : String) (g : GetContestOptions) :
    Option ContestView :=
  (s.contests.find? (fun d => decide (d.contestId = contestId))).map
    (fun d => documentToContest s d g)

/-- `ContestDao.getContestListCount` builds the same filtered query as
`getContestList` but then calls `estimatedDocumentCount()`, which ignores
the query's conditions, skip and limit and returns the size of the whole
contest collection. -/
def ContestDao.getContestListCount (s : Store) (_o : ContestFilterOptions)
    (_asUser : Option String) : Nat :=
  s.contests.length

/-- Modelled from the spec: the count the spec describes for
`count(filterOptions, [asUser])` — the number of stored documents matching
the composed filter conditions and the visibility condition, ignoring
`startIndex` and `itemCount`.  Kept separate from the code's
`getContestListCount` for comparison. -/
def contestListCountSpec (s : Store) (o : ContestFilterOptions)
    (asUser : Option String) : Nat :=
  (s.contests.filter (fun d => contestMatches o d && contestVisibleTo asUser d)).length

/-- The `$or` visibility condition of `getCollectionList`. -/
def collectionVisibleTo (asUser : Option String) (d : CollectionDoc) : Bool :=
  match asUser with
  | none => true
  | some u => decide (d.ownerUsername = u) || d.isPublic

/-- `CollectionDao.getCollectionList` up to the `documentToCollection`
mapping. -/
def CollectionDao.getCollectionListDocs (s : Store) (o : CollectionFilterOptions)
    (asUser : Option String) : List CollectionDoc :=
  applySortSkipLimit collectionFieldVal o.sortFields o.startIndex o.itemCount
    (s.collections.filter (fun d => collectionMatches o d && collectionVisibleTo asUser d))

/-- `CollectionDao.getCollectionList`. -/
def CollectionDao.getCollectionList (s : Store) (o : CollectionFilterOptions)
    (asUser : Option String) (includeProblems : Bool) : List CollectionView :=
  (CollectionDao.getCollectionListDocs s o asUser).map
    (fun d => documentToCollection s d includeProblems)

/-- The document list the submission `filterQuery` alone yields on
execution (filter, then sort, skip and limit). -/
def submissionFilterQueryDocs (s : Store) (o : SubmissionFilterOptions) :
    List SubmissionDoc :=
  applySortSkipLimit submissionFieldVal o.sortFields o.startIndex o.itemCount
    (s.submissions.filter (fun d => submissionMatches o d))

/-- `SubmissionDao.getSubmissionList` up to the `documentToSubmission`
mapping.  Without `asUser` the filtered query executes normally.  When
`asUser` is supplied the source merges `{problem: {$subquery: {$or:
[{authorUsername: asUser}, {isPublic: true}]}}}` into the query — but
`$subquery` is an operator no layer implements: mongoose fails to cast the
unknown conditional on the `problem` path (and the store would reject the
unknown operator were it passed through), so executing the query rejects
with that error and no document list is ever produced. -/
def SubmissionDao.getSubmissionListDocs (s : Store) (o : SubmissionFilterOptions)
    (asUser : Option String) : Except DaoError (List SubmissionDoc) :=
  match asUser with
  | some _ => .error (.unknownQueryOperator "$subquery")
  | none => .ok (submissionFilterQueryDocs s o)

/-! ## Create/update patches and mutations -/

/-- `ContestBase` (`contest.ts`): the full contest field set with the
organizer as a denormalized username. -/
structure ContestBase where
  contestId : String
  organizerUsername : String
  displayName : String
  format : String
  startTime : Int
  duration : Int
  description : String
  isPublic : Bool
  deriving DecidableEq

/-- `ContestDao.updateContest`: deletes `contestId` and `organizerUsername`
from the patch, then `findOneAndUpdate({contestId}, contest)`.  Without
`new: true` the store hands back the document as it was before the update,
and that pre-update document is what gets expanded and returned; the update
itself is applied to the store.  Returns the new store and the returned
value (`none` when the id does not exist, in which case nothing changes). -/
def ContestDao.updateContest (s : Store) (b : ContestBase) : Store × Option ContestView :=
  match s.contests.find? (fun d => decide (d.contestId = b.contestId)) with
  | none => (s, none)
  | some d =>
    let d2 : ContestDoc :=
      { d with displayName := b.displayName, format := b.format,
               startTime := b.startTime, duration := b.duration,
               description := b.description, isPublic := b.isPublic }
    ({ s with contests := replaceFirst (fun x => decide (x.contestId = b.contestId)) d2 s.contests },
     some (documentToContest s d defaultGetContestOptions))

/-- `ProblemMetadata` (the `ProblemDao` revision in `problems.ts`). -/
structure ProblemMetadata where
  problemId : String
  authorUsername : String
  displayName : String
  timeLimit : Int
  memoryLimit : Int
  inputSource : String
  outputSource : String
  checker : String
  deriving DecidableEq

/-- `ProblemDao.updateProblem`: deletes `problemId` and `authorUsername`
from the patch, then `findOneAndUpdate({problemId}, problem)`.  Returns the
new store and the pre-update document (which the source additionally parses
through `Problem.fromObject`); `none` when the id does not exist. -/
def ProblemDao.updateProblem (s : Store) (b : ProblemMetadata) : Store × Option ProblemDoc :=
  match s.problems.find? (fun d => decide (d.problemId = b.problemId)) with
  | none => (s, none)
  | some d =>
    let d2 : ProblemDoc :=
      { d with displayName := b.displayName, timeLimit := b.timeLimit,
               memoryLimit := b.memoryLimit, inputSource := b.inputSource,
               outputSource := b.outputSource, checker := b.checker }
    ({ s with problems := replaceFirst (fun x => decide (x.problemId = b.problemId)) d2 s.problems },
     some d)

/-- `CollectionBase` (`collection.ts`). -/
structure CollectionBase where
  collectionId : String
  ownerUsername : String
  displayName : String
  creationDate : Int
  description : String
  isPublic : Bool
  deriving DecidableEq

/-- `CollectionDao.updateCollection`: deletes `collectionId` and
`ownerUsername` from the patch, applies the rest, returns the pre-update
document expanded without problems; `none` when the id does not exist. -/
def CollectionDao.updateCollection (s : Store) (b : CollectionBase) :
    Store × Option CollectionView :=
  match s.collections.find? (fun d => decide (d.collectionId = b.collectionId)) with
  | none => (s, none)
  | some d =>
    let d2 : CollectionDoc :=
      { d with displayName := b.displayName, creationDate := b.creationDate,
               description := b.description, isPublic := b.isPublic }
    ({ s with collections :=
        replaceFirst (fun x => decide (x.collectionId = b.collectionId)) d2 s.collections },
     some (documentToCollection s d false))

/-- Modelled from the spec: the `result` part of a `SubmissionBase` patch —
the class itself is imported from `submission.ts` but not declared in the
sources; per the external-interface description it carries the result's
plain fields with the failed test case as the denormalized
`failedTestCaseId` string (nullable). -/
structure SubmissionResultBase where
  score : Int
  runTime : Int
  failedTestCaseId : Option String
  actualOutput : String
  log : String
  deriving DecidableEq

/-- Modelled from the spec: `SubmissionBase` — the full submission field set
minus populated sub-objects, using denormalized foreign-key strings
(`authorUsername`, `problemId`, nullable `contestId`), as
`SubmissionDao.addSubmission`/`updateSubmission` consume it. -/
structure SubmissionBase where
  submissionId : String
  authorUsername : String
  problemId : String
  contestId : Option String
  sourceFile : String
  language : String
  submissionTime : Int
  status : String
  result : Option SubmissionResultBase
  deriving DecidableEq

/-- JavaScript truthiness of the optional `failedTestCaseId` string. -/
def truthyString : Option String → Bool
  | none => false
  | some v => decide (v ≠ "")

/-- The `findOneAndUpdate({submissionId}, submission)` tail of
`updateSubmission`: apply the remaining patch fields to the first matching
document, hand back the pre-update document (`none` when the id is
absent). -/
def submissionFindOneAndUpdate (s : Store) (b : SubmissionBase) : Store × Option SubmissionDoc :=
  match s.submissions.find? (fun d => decide (d.submissionId = b.submissionId)) with
  | none => (s, none)
  | some d =>
    let d2 : SubmissionDoc :=
      { d with sourceFile := b.sourceFile, language := b.language,
               submissionTime := b.submissionTime, status := b.status,
               result := b.result.map (fun r =>
                 ⟨r.score, r.runTime, none, r.actualOutput, r.log⟩) }
    ({ s with submissions :=
        replaceFirst (fun x => decide (x.submissionId = b.submissionId)) d2 s.submissions },
     some d)

/-- `SubmissionDao.updateSubmission`: deletes `authorUsername`, `problemId`
and `contestId` from the patch; when the patch's `result` carries a truthy
`failedTestCaseId` it looks the test case up and — as written in the source
— throws `TestCaseNotFoundError` when the lookup FOUND a document
(`if (testCaseDocument !== null)`), while on a null lookup it falls through
to read `testCaseDocument._id`, a TypeError that rejects the promise.
Otherwise `findOneAndUpdate({submissionId}, submission)` applies the patch
and the pre-update document is resolved (null when the id is absent). -/
def SubmissionDao.updateSubmission (s : Store) (b : SubmissionBase) :
    Except DaoError (Store × Option SubmissionDoc) :=
  match b.result with
  | some r =>
    if truthyString r.failedTestCaseId then
      match r.failedTestCaseId with
      | none => .error .nullDereference
      | some tcid =>
        match s.testCases.find? (fun t => decide (t.testCaseId = tcid)) with
        | some _ => .error (.testCaseNotFound tcid)
        | none => .error .nullDereference
    else
      .ok (submissionFindOneAndUpdate s b)
  | none => .ok (submissionFindOneAndUpdate s b)

/-- The creation tail of `addSubmission` once author, problem and (when
truthy) the failed test case are resolved: resolve the contest when
`contestId` is truthy, then append the new document with references and
denormalized fields filled in. -/
def addSubmissionResolved (s : Store) (b : SubmissionBase) (newOid : Nat)
    (u : UserDoc) (p : ProblemDoc) (tcOid : Option Nat) : Except DaoError Store :=
  match b.contestId with
  | some cid =>
    if cid ≠ "" then
      match s.contests.find? (fun c => decide (c.contestId = cid)) with
      | none => .error (.contestNotFound cid)
      | some c => .ok { s with submissions := s.submissions ++
          [⟨newOid, b.submissionId, u.oid, b.authorUsername, p.oid, b.problemId,
            some c.oid, b.contestId, b.sourceFile, b.language, b.submissionTime,
            b.status, b.result.map (fun r => ⟨r.score, r.runTime, tcOid, r.actualOutput, r.log⟩)⟩] }
    else .ok { s with submissions := s.submissions ++
        [⟨newOid, b.submissionId, u.oid, b.authorUsername, p.oid, b.problemId,
          none, b.contestId, b.sourceFile, b.language, b.submissionTime,
          b.status, b.result.map (fun r => ⟨r.score, r.runTime, tcOid, r.actualOutput, r.log⟩)⟩] }
  | none => .ok { s with submissions := s.submissions ++
      [⟨newOid, b.submissionId, u.oid, b.authorUsername, p.oid, b.problemId,
        none, b.contestId, b.sourceFile, b.language, b.submissionTime,
        b.status, b.result.map (fun r => ⟨r.score, r.runTime, tcOid, r.actualOutput, r.log⟩)⟩] }

/-- `SubmissionDao.addSubmission`: resolves the author, the problem, the
failed test case (only when the patch result carries a truthy
`failedTestCaseId`) and the contest (only when `contestId` is truthy), each
with its typed not-found error — here the test-case check throws exactly
when the lookup found nothing (`if (failedTestCaseId && testCaseDocument ===
null)`).  `newOid` stands for the store-generated `_id`. -/
def SubmissionDao.addSubmission (s : Store) (b : SubmissionBase) (newOid : Nat) :
    Except DaoError Store :=
  match s.users.find? (fun u => decide (u.username = b.authorUsername)) with
  | none => .error (.userNotFound b.authorUsername)
  | some u =>
    match s.problems.find? (fun p => decide (p.problemId = b.problemId)) with
    | none => .error (.problemNotFound b.problemId)
    | some p =>
      match b.result.bind (fun r => r.failedTestCaseId) with
      | some tcid =>
        if tcid ≠ "" then
          match s.testCases.find? (fun t => decide (t.testCaseId = tcid)) with
          | none => .error (.testCaseNotFound tcid)
          | some tc => addSubmissionResolved s b newOid u p (some tc.oid)
        else addSubmissionResolved s b newOid u p none
      | none => addSubmissionResolved s b newOid u p none

/-! ## Relation mutations (owner-first transactions) -/

/-- `ContestDao.addContestProblem`: load the contest (Contest-not-found when
absent), then the problem (Problem-not-found when absent), then `$addToSet`
the problem reference. -/
def ContestDao.addContestProblem (s : Store) (contestId problemId : String) :
    Except DaoError Store :=
  match s.contests.find? (fun c => decide (c.contestId = contestId)) with
  | none => .error (.contestNotFound contestId)
  | some c =>
    match s.problems.find? (fun p => decide (p.problemId = problemId)) with
    | none => .error (.problemNotFound problemId)
    | some p =>
      let c2 : ContestDoc := { c with problems := addToSet p.oid c.problems }
      .ok { s with contests :=
        replaceFirst (fun x => decide (x.contestId = contestId)) c2 s.contests }

/-- `ContestDao.removeContestProblem`: same checks, then `$pull`. -/
def ContestDao.removeContestProblem (s : Store) (contestId problemId : String) :
    Except DaoError Store :=
  match s.contests.find? (fun c => decide (c.contestId = contestId)) with
  | none => .error (.contestNotFound contestId)
  | some c =>
    match s.problems.find? (fun p => decide (p.problemId = problemId)) with
    | none => .error (.problemNotFound problemId)
    | some p =>
      let c2 : ContestDoc := { c with problems := c.problems.filter (fun oid => decide (oid ≠ p.oid)) }
      .ok { s with contests :=
        replaceFirst (fun x => decide (x.contestId = contestId)) c2 s.contests }

/-- `ContestDao.addContestParticipant`: load the contest (Contest-not-found
when absent), then the user (User-not-found when absent), then `$addToSet`
the user reference. -/
def ContestDao.addContestParticipant (s : Store) (contestId username : String) :
    Except DaoError Store :=
  match s.contests.find? (fun c => decide (c.contestId = contestId)) with
  | none => .error (.contestNotFound contestId)
  | some c =>
    match s.users.find? (fun u => decide (u.username = username)) with
    | none => .error (.userNotFound username)
    | some u =>
      let c2 : ContestDoc := { c with participants := addToSet u.oid c.participants }
      .ok { s with contests :=
        replaceFirst (fun x => decide (x.contestId = contestId)) c2 s.contests }

/-- `CollectionDao.addCollectionProblem`: load the collection
(Collection-not-found when absent), then the problem (Problem-not-found
when absent), then `$addToSet`. -/
def CollectionDao.addCollectionProblem (s : Store) (collectionId problemId : String) :
    Except DaoError Store :=
  match s.collections.find? (fun c => decide (c.collectionId = collectionId)) with
  | none => .error (.collectionNotFound collectionId)
  | some c =>
    match s.problems.find? (fun p => decide (p.problemId = problemId)) with
    | none => .error (.problemNotFound problemId)
    | some p =>
      let c2 : CollectionDoc := { c with problems := addToSet p.oid c.problems }
      .ok { s with collections :=
        replaceFirst (fun x => decide (x.collectionId = collectionId)) c2 s.collections }

/-- `ProblemDao.addProblemTestCase`: load the problem (`NoSuchProblemError`
when absent), then the test case (`NoSuchTestCaseError` when absent), then
`$addToSet`. -/
def ProblemDao.addProblemTestCase (s : Store) (problemId testCaseId : String) :
    Except DaoError Store :=
  match s.problems.find? (fun p => decide (p.problemId = problemId)) with
  | none => .error (.noSuchProblem problemId)
  | some p =>
    match s.testCases.find? (fun t => decide (t.testCaseId = testCaseId)) with
    | none => .error (.noSuchTestCase testCaseId)
    | some t =>
      let p2 : ProblemDoc := { p with testCases := addToSet t.oid p.testCases }
      .ok { s with problems :=
        replaceFirst (fun x => decide (x.problemId = problemId)) p2 s.problems }

/-! ## Authentication details -/

/-- `AuthenticationDetailDao.addAuthenticationDetail`: resolve the user
(`UserNotFoundError` when absent) and create the detail document —
unconditionally, so a user can accumulate several details with the same
method.  `newOid` stands for the store-generated `_id`; the on-save
password-hashing middleware is an external collaborator and the stored
value string is kept opaque. -/
def AuthenticationDetailDao.addAuthenticationDetail (s : Store) (username : String)
    (method value : String) (newOid : Nat) : Except DaoError Store :=
  match s.users.find? (fun u => decide (u.username = username)) with
  | none => .error (.userNotFound username)
  | some u =>
    .ok { s with authenticationDetails :=
      s.authenticationDetails ++ [⟨newOid, u.oid, method, value⟩] }

/-- `AuthenticationDetailDao.deleteAuthenticationDetail`: resolve the user
(`UserNotFoundError` when absent), then `deleteMany({ofUserId, method})`;
when the deleted count is zero, throw `AuthenticationDetailNotFoundError`
(the transaction had nothing to roll back in that case). -/
def AuthenticationDetailDao.deleteAuthenticationDetail (s : Store)
    (username method : String) : Except DaoError Store :=
  match s.users.find? (fun u => decide (u.username = username)) with
  | none => .error (.userNotFound username)
  | some u =>
    let remaining := s.authenticationDetails.filter
      (fun d => !(decide (d.ofUserId = u.oid) && decide (d.method = method)))
    if remaining.length = s.authenticationDetails.length then
      .error (.authenticationDetailNotFound username method)
    else
      .ok { s with authenticationDetails := remaining }

/-! ## Concrete sample data

A small populated store used to evaluate the operations on explicit
inputs. -/

/-- User alice, `_id` 1. -/
def aliceDoc : UserDoc := ⟨1, "alice", "Alice"⟩

/-- User bob, `_id` 2. -/
def bobDoc : UserDoc := ⟨2, "bob", "Bob"⟩

/-- A private problem authored by alice, holding one test-case reference. -/
def p1Doc : ProblemDoc :=
  ⟨10, "p1", 1, "alice", "Problem One", some 3, false, 1000, 256,
    "stdio", "stdio", "EqualChecker", [100]⟩

/-- A public problem authored by alice. -/
def p2Doc : ProblemDoc :=
  ⟨11, "p2", 1, "alice", "Problem Two", some 4, true, 1000, 256,
    "stdio", "stdio", "EqualChecker", []⟩

/-- The test case referenced by `p1Doc`. -/
def tc1Doc : TestCaseDoc := ⟨100, "tc1", "in1", "out1", false, false, 10⟩

/-- A private contest organized by alice holding problem `p1`. -/
def c1Doc : ContestDoc :=
  ⟨20, "c1", 1, "alice", "Old", "IOI", 100, 600000, "desc", false, [10], [2]⟩

/-- A private contest organized by bob. -/
def c2Doc : ContestDoc :=
  ⟨21, "c2", 2, "bob", "C Two", "ICPC", 200, 600000, "d2", false, [], []⟩

/-- A submission by bob on alice's private problem `p1`, submitted at
time 5. -/
def sub1Doc : SubmissionDoc :=
  ⟨30, "s1", 2, "bob", 10, "p1", none, none, "main.cpp", "Cpp", 5, "WA",
    some ⟨0, 50, none, "out", "log"⟩⟩

/-- A public collection owned by alice, created at time 1, display name
"A". -/
def colADoc : CollectionDoc := ⟨40, "colA", 1, "alice", "A", 1, "da", true, []⟩

/-- A public collection owned by alice, created at time 2, display name
"B". -/
def colBDoc : CollectionDoc := ⟨41, "colB", 1, "alice", "B", 2, "db", true, []⟩

/-- The populated sample store.  Alice holds two `Password` authentication
details (duplicates are possible because `addAuthenticationDetail` never
deduplicates). -/
def mainStore : Store :=
  ⟨[aliceDoc, bobDoc],
   [⟨50, 1, "Password", "h1"⟩, ⟨51, 1, "Password", "h2"⟩],
   [p1Doc, p2Doc],
   [tc1Doc],
   [c1Doc, c2Doc],
   [],
   [sub1Doc],
   [colADoc, colBDoc]⟩

/-- A store with no documents at all. -/
def emptyStore : Store := ⟨[], [], [], [], [], [], [], []⟩

/-- Filter options selecting contests organized by alice, otherwise the
defaults. -/
def c3Opts : ContestFilterOptions :=
  ⟨0, none, some ["alice"], none, none, none, none, some [⟨"startTime", false⟩]⟩

/-- Submission filter options with a `submissionTime` range `[null, 10]`,
otherwise the defaults. -/
def c4Opts : SubmissionFilterOptions :=
  ⟨0, none, none, none, none, none, none, some (none, some 10),
    some [⟨"submissionTime", false⟩]⟩

/-- A submission patch whose result names the existing failed test case
`tc1`. -/
def c2Patch : SubmissionBase :=
  ⟨"s1", "bob", "p1", none, "main.cpp", "Cpp", 6, "WA",
    some ⟨0, 60, some "tc1", "out2", "log2"⟩⟩

/-- A submission patch whose result names a nonexistent failed test case. -/
def c2PatchMissing : SubmissionBase :=
  ⟨"s1", "bob", "p1", none, "main.cpp", "Cpp", 6, "WA",
    some ⟨0, 60, some "nosuchtc", "out2", "log2"⟩⟩

/-- A contest patch renaming contest `c1`, with a different organizer
username in the patch. -/
def c6Patch : ContestBase :=
  ⟨"c1", "mallory", "New", "IOI", 100, 600000, "desc", false⟩

/-- A problem patch for `p1` naming a different author. -/
def c8Patch : ProblemMetadata :=
  ⟨"p1", "mallory", "Renamed", 2000, 512, "in.txt", "out.txt", "CaseInsensitiveEqualChecker"⟩

deriving instance DecidableEq for Except

/-! ## Helper lemmas -/

theorem BsonValue.leRefl (x : BsonValue) : x.le x = true := by
  cases x <;> simp [BsonValue.le]

theorem BsonValue.leTotal (x y : BsonValue) : x.le y = true ∨ y.le x = true := by
  cases x <;> cases y <;>
    simp only [BsonValue.le, decide_eq_true_eq, Bool.false_eq_true] <;>
    first
      | exact Or.inl trivial
      | exact Or.inr trivial
      | exact Int.le_total _ _
      | exact le_total _ _

theorem BsonValue.leTrans {x y z : BsonValue} (h1 : x.le y = true) (h2 : y.le z = true) :
    x.le z = true := by
  cases x <;> cases y <;> cases z <;>
    simp only [BsonValue.le, decide_eq_true_eq, Bool.false_eq_true] at h1 h2 ⊢ <;>
    first
      | trivial
      | exact h1.elim
      | exact h2.elim
      | exact le_trans h1 h2

theorem mem_sortStage_iff (fieldOf : String → α → BsonValue)
    (sortFields : Option (List SortDirective)) (l : List α) (x : α) :
    x ∈ sortStage fieldOf sortFields l ↔ x ∈ l := by
  cases sortFields with
  | none => exact Iff.rfl
  | some dirs => exact List.mem_insertionSort _

theorem mem_of_mem_skipStage {x : α} {l : List α} {n : Nat}
    (h : x ∈ skipStage n l) : x ∈ l := by
  unfold skipStage at h
  by_cases h0 : n ≠ 0
  · rw [if_pos h0] at h
    exact List.mem_of_mem_drop h
  · rwa [if_neg h0] at h

theorem mem_of_mem_limitStage {x : α} {itemCount : Option Nat} {l : List α}
    (h : x ∈ limitStage itemCount l) : x ∈ l := by
  cases itemCount with
  | none => exact h
  | some n => exact List.mem_of_mem_take h

theorem mem_applySortSkipLimit_iff (fieldOf : String → α → BsonValue)
    (sortFields : Option (List SortDirective)) (l : List α) (x : α) :
    x ∈ applySortSkipLimit fieldOf sortFields 0 none l ↔ x ∈ l := by
  unfold applySortSkipLimit limitStage skipStage
  simp only [ne_eq, not_true_eq_false, if_false, reduceIte]
  exact mem_sortStage_iff fieldOf sortFields l x

theorem mem_of_mem_applySortSkipLimit (fieldOf : String → α → BsonValue)
    (sortFields : Option (List SortDirective)) (startIndex : Nat)
    (itemCount : Option Nat) (l : List α) (x : α)
    (h : x ∈ applySortSkipLimit fieldOf sortFields startIndex itemCount l) : x ∈ l := by
  unfold applySortSkipLimit at h
  exact (mem_sortStage_iff fieldOf sortFields l x).mp
    (mem_of_mem_skipStage (mem_of_mem_limitStage h))

theorem find?_replaceFirst {α : Type} (p : α → Bool) (x d : α) (l : List α)
    (h : l.find? p = some d) (hx : p x = true) :
    (replaceFirst p x l).find? p = some x := by
  induction l with
  | nil => simp [List.find?] at h
  | cons a rest ih =>
    by_cases ha : p a = true
    · unfold replaceFirst
      rw [if_pos ha]
      exact List.find?_cons_of_pos _ hx
    · rw [List.find?_cons_of_neg _ ha] at h
      unfold replaceFirst
      rw [if_neg ha, List.find?_cons_of_neg _ ha]
      exact ih h

theorem mem_replaceFirst_of_ne {α : Type} (p : α → Bool) (x y : α) (l : List α)
    (hy : p y = false) (h : y ∈ l) : y ∈ replaceFirst p x l := by
  induction l with
  | nil => cases h
  | cons a rest ih =>
    by_cases ha : p a = true
    · unfold replaceFirst
      rw [if_pos ha]
      rcases List.mem_cons.mp h with h1 | h1
      · subst h1
        rw [hy] at ha
        cases ha
      · exact List.mem_cons_of_mem _ h1
    · unfold replaceFirst
      rw [if_neg ha]
      rcases List.mem_cons.mp h with h1 | h1
      · exact h1 ▸ List.mem_cons_self _ _
      · exact List.mem_cons_of_mem _ (ih h1)

theorem singleDirectiveLE {α : Type} (fieldOf : String → α → BsonValue) (f : String)
    (g : α → Int) (hf : ∀ x, fieldOf f x = .int (g x)) (a b : α) :
    (sortFieldsLE fieldOf [⟨f, false⟩] a b = true) ↔ g b ≤ g a := by
  show ((if fieldOf f a = fieldOf f b then sortFieldsLE fieldOf [] a b
    else directiveLE false (fieldOf f a) (fieldOf f b)) = true) ↔ g b ≤ g a
  rw [hf a, hf b]
  by_cases hab : g a = g b
  · rw [hab, if_pos rfl]
    simp [sortFieldsLE, hab.symm.le]
  · rw [if_neg (by simpa using hab)]
    simp [directiveLE, BsonValue.le]

theorem sorted_singleDirective_desc {α : Type} (fieldOf : String → α → BsonValue)
    (f : String) (g : α → Int) (hf : ∀ x, fieldOf f x = .int (g x)) (l : List α) :
    (applySortSkipLimit fieldOf (some [⟨f, false⟩]) 0 none l).Sorted
      (fun a b => g b ≤ g a) := by
  unfold applySortSkipLimit limitStage skipStage sortStage
  simp only [ne_eq, not_true_eq_false, if_false, reduceIte]
  haveI htot : IsTotal α (fun a b => sortFieldsLE fieldOf [⟨f, false⟩] a b = true) :=
    ⟨fun a b => by
      rw [singleDirectiveLE fieldOf f g hf, singleDirectiveLE fieldOf f g hf]
      exact le_total _ _⟩
  haveI htrans : IsTrans α (fun a b => sortFieldsLE fieldOf [⟨f, false⟩] a b = true) :=
    ⟨fun a b c hab hbc => by
      rw [singleDirectiveLE fieldOf f g hf] at hab hbc ⊢
      exact le_trans hbc hab⟩
  exact List.Pairwise.imp (fun h => (singleDirectiveLE fieldOf f g hf _ _).mp h)
    (List.sorted_insertionSort _ l)

theorem deleteAuthenticationDetail_eq_of_found (s : Store) (username method : String)
    (u : UserDoc)
    (hu : s.users.find? (fun u2 => decide (u2.username = username)) = some u) :
    AuthenticationDetailDao.deleteAuthenticationDetail s username method =
      (if (s.authenticationDetails.filter
            (fun d => !(decide (d.ofUserId = u.oid) && decide (d.method = method)))).length =
          s.authenticationDetails.length then
        .error (.authenticationDetailNotFound username method)
      else .ok ⟨s.users,
        s.authenticationDetails.filter
          (fun d => !(decide (d.ofUserId = u.oid) && decide (d.method = method))),
        s.problems, s.testCases, s.contests, s.announcements, s.submissions,
        s.collections⟩) := by
  unfold AuthenticationDetailDao.deleteAuthenticationDetail
  rw [hu]

theorem addAuthenticationDetail_eq_of_found (s : Store) (username method v : String)
    (newOid : Nat) (u : UserDoc)
    (hu : s.users.find? (fun u2 => decide (u2.username = username)) = some u) :
    AuthenticationDetailDao.addAuthenticationDetail s username method v newOid =
      .ok ⟨s.users, s.authenticationDetails ++ [⟨newOid, u.oid, method, v⟩],
        s.problems, s.testCases, s.contests, s.announcements, s.submissions,
        s.collections⟩ := by
  unfold AuthenticationDetailDao.addAuthenticationDetail
  rw [hu]

/-! ## Claim theorems -/

/-- C7: For every relation-mutation operation (addContestParticipant,
addContestProblem, addCollectionProblem, addProblemTestCase), when both the
owning document and the referenced document are missing, the operation
raises the owner's not-found error (Contest / Collection / Problem
not-found), never the referenced entity's, because the owner is checked
first. -/
theorem c7_owner_checked_first (s : Store) :
    (∀ contestId username,
      s.contests.find? (fun c => decide (c.contestId = contestId)) = none →
      s.users.find? (fun u => decide (u.username = username)) = none →
      ContestDao.addContestParticipant s contestId username =
        .error (.contestNotFound contestId))
  ∧ (∀ contestId problemId,
      s.contests.find? (fun c => decide (c.contestId = contestId)) = none →
      s.problems.find? (fun p => decide (p.problemId = problemId)) = none →
      ContestDao.addContestProblem s contestId problemId =
        .error (.contestNotFound contestId))
  ∧ (∀ collectionId problemId,
      s.collections.find? (fun c => decide (c.collectionId = collectionId)) = none →
      s.problems.find? (fun p => decide (p.problemId = problemId)) = none →
      CollectionDao.addCollectionProblem s collectionId problemId =
        .error (.collectionNotFound collectionId))
  ∧ (∀ problemId testCaseId,
      s.problems.find? (fun p => decide (p.problemId = problemId)) = none →
      s.testCases.find? (fun t => decide (t.testCaseId = testCaseId)) = none →
      ProblemDao.addProblemTestCase s problemId testCaseId =
        .error (.noSuchProblem problemId)) := by
  refine ⟨?_, ?_, ?_, ?_⟩ <;> intro a b h1 _h2
  · unfold ContestDao.addContestParticipant
    rw [h1]
  · unfold ContestDao.addContestProblem
    rw [h1]
  · unfold CollectionDao.addCollectionProblem
    rw [h1]
  · unfold ProblemDao.addProblemTestCase
    rw [h1]

/-- Witness for C7 at a concrete input: the empty store holds neither the
contest nor the user, and add-participant raises Contest-not-found. -/
theorem c7_owner_checked_first_witness :
    ContestDao.addContestParticipant emptyStore "c9" "mallory" =
      .error (.contestNotFound "c9") :=
  (c7_owner_checked_first emptyStore).1 "c9" "mallory" rfl rfl

/-- C8: `ProblemDao.updateProblem` discards the immutable identity fields of
the patch before applying it: the stored problem keeps its `problemId`,
`author` reference, `authorUsername` and `creationDate`, only the mutable
fields take the patch's values, the pre-update document is returned, and
problems with a different id are untouched. -/
theorem c8_update_discards_immutable_fields (s : Store) (b : ProblemMetadata)
    (d : ProblemDoc)
    (h : s.problems.find? (fun x => decide (x.problemId = b.problemId)) = some d) :
    (ProblemDao.updateProblem s b).2 = some d ∧
    (∃ d2, (ProblemDao.updateProblem s b).1.problems.find?
        (fun x => decide (x.problemId = b.problemId)) = some d2 ∧
      d2.problemId = d.problemId ∧ d2.author = d.author ∧
      d2.authorUsername = d.authorUsername ∧ d2.creationDate = d.creationDate ∧
      d2.displayName = b.displayName ∧ d2.timeLimit = b.timeLimit ∧
      d2.memoryLimit = b.memoryLimit ∧ d2.inputSource = b.inputSource ∧
      d2.outputSource = b.outputSource ∧ d2.checker = b.checker) ∧
    (∀ x ∈ s.problems, decide (x.problemId = b.problemId) = false →
      x ∈ (ProblemDao.updateProblem s b).1.problems) := by
  have hpd := List.find?_some h
  have hfind := find?_replaceFirst (fun x => decide (x.problemId = b.problemId))
    (⟨d.oid, d.problemId, d.author, d.authorUsername, b.displayName, d.creationDate,
      d.isPublic, b.timeLimit, b.memoryLimit, b.inputSource, b.outputSource,
      b.checker, d.testCases⟩ : ProblemDoc) d s.problems h hpd
  refine ⟨?_, ⟨(⟨d.oid, d.problemId, d.author, d.authorUsername, b.displayName,
      d.creationDate, d.isPublic, b.timeLimit, b.memoryLimit, b.inputSource,
      b.outputSource, b.checker, d.testCases⟩ : ProblemDoc), ?_, rfl, rfl, rfl,
      rfl, rfl, rfl, rfl, rfl, rfl, rfl⟩, ?_⟩
  · unfold ProblemDao.updateProblem
    rw [h]
  · show List.find? _ (ProblemDao.updateProblem s b).1.problems = some _
    unfold ProblemDao.updateProblem
    rw [h]
    exact hfind
  · intro x hx hne
    unfold ProblemDao.updateProblem
    rw [h]
    exact mem_replaceFirst_of_ne _ _ _ _ hne hx

/-- Witness for C8 at a concrete input: patching problem `p1` with author
"mallory" leaves the stored author "alice"; the display name takes the
patch's value. -/
theorem c8_update_discards_immutable_fields_witness :
    ∃ d2, (ProblemDao.updateProblem mainStore c8Patch).1.problems.find?
        (fun x => decide (x.problemId = c8Patch.problemId)) = some d2 ∧
      d2.authorUsername = "alice" ∧ d2.displayName = "Renamed" := by
  obtain ⟨-, ⟨d2, hfind, -, -, hauthor, -, hdisp, -⟩, -⟩ :=
    c8_update_discards_immutable_fields mainStore c8Patch p1Doc rfl
  exact ⟨d2, hfind, hauthor.trans rfl, hdisp.trans rfl⟩

/-- C10: `deleteAuthenticationDetail` throws `UserNotFoundError` when the
user is missing; otherwise it removes every detail of that user with that
method in one `deleteMany` (duplicates can exist because
`addAuthenticationDetail` appends unconditionally) and throws
`AuthenticationDetailNotFoundError` exactly when no such detail existed. -/
theorem c10_delete_authentication_detail_semantics (s : Store) (username method : String) :
    (s.users.find? (fun u => decide (u.username = username)) = none →
      AuthenticationDetailDao.deleteAuthenticationDetail s username method =
        .error (.userNotFound username))
  ∧ (∀ u, s.users.find? (fun u2 => decide (u2.username = username)) = some u →
      ((∀ d ∈ s.authenticationDetails, ¬(d.ofUserId = u.oid ∧ d.method = method)) →
        AuthenticationDetailDao.deleteAuthenticationDetail s username method =
          .error (.authenticationDetailNotFound username method))
      ∧ ((∃ d ∈ s.authenticationDetails, d.ofUserId = u.oid ∧ d.method = method) →
          ∃ s2, AuthenticationDetailDao.deleteAuthenticationDetail s username method =
              .ok s2 ∧
            (∀ d, d ∈ s2.authenticationDetails ↔
              (d ∈ s.authenticationDetails ∧ ¬(d.ofUserId = u.oid ∧ d.method = method))) ∧
            s2.users = s.users)
      ∧ (∀ v newOid, ∃ s2,
          AuthenticationDetailDao.addAuthenticationDetail s username method v newOid =
            .ok s2 ∧
          s2.authenticationDetails.length = s.authenticationDetails.length + 1 ∧
          ∀ d ∈ s.authenticationDetails, d ∈ s2.authenticationDetails)) := by
  constructor
  · intro hnone
    unfold AuthenticationDetailDao.deleteAuthenticationDetail
    rw [hnone]
  · intro u hu
    refine ⟨?_, ?_, ?_⟩
    · intro hall
      have hlen : (s.authenticationDetails.filter
          (fun d => !(decide (d.ofUserId = u.oid) && decide (d.method = method)))).length =
          s.authenticationDetails.length := by
        rw [List.filter_length_eq_length]
        intro d hd
        have hna := hall d hd
        by_cases h1 : d.ofUserId = u.oid
        · have h2 : d.method ≠ method := fun hm => hna ⟨h1, hm⟩
          simp [h1, h2]
        · simp [h1]
      rw [deleteAuthenticationDetail_eq_of_found s username method u hu, if_pos hlen]
    · intro hex
      have hlen : ¬((s.authenticationDetails.filter
          (fun d => !(decide (d.ofUserId = u.oid) && decide (d.method = method)))).length =
          s.authenticationDetails.length) := by
        intro hcon
        rw [List.filter_length_eq_length] at hcon
        obtain ⟨d, hd, hd1, hd2⟩ := hex
        have := hcon d hd
        simp [hd1, hd2] at this
      rw [deleteAuthenticationDetail_eq_of_found s username method u hu, if_neg hlen]
      refine ⟨_, rfl, ?_, rfl⟩
      intro d
      simp [List.mem_filter]
      tauto
    · intro v newOid
      rw [addAuthenticationDetail_eq_of_found s username method v newOid u hu]
      refine ⟨_, rfl, by simp, ?_⟩
      intro d hd
      simp [hd]

/-- Witness for C10 at a concrete input: alice holds two duplicate
`Password` details and one delete call removes both. -/
theorem c10_delete_authentication_detail_semantics_witness :
    ∃ s2, AuthenticationDetailDao.deleteAuthenticationDetail mainStore "alice" "Password" =
        .ok s2 ∧
      (∀ d, d ∈ s2.authenticationDetails ↔
        (d ∈ mainStore.authenticationDetails ∧
          ¬(d.ofUserId = aliceDoc.oid ∧ d.method = "Password"))) ∧
      s2.users = mainStore.users := by
  obtain ⟨-, h2⟩ := c10_delete_authentication_detail_semantics mainStore "alice" "Password"
  obtain ⟨-, hsome, -⟩ := h2 aliceDoc rfl
  exact hsome ⟨⟨50, 1, "Password", "h1"⟩, by decide, by decide⟩

/-- C2 (code bug): `updateSubmission`'s re-resolution of
`result.failedTestCaseId` has its existence check inverted relative to
`addSubmission`: with test case `tc1` present in the store it throws
`TestCaseNotFoundError`, with a missing id it dereferences the null lookup
instead of throwing; `addSubmission` with the very same patch succeeds.  In
both failing cases the throw precedes `findOneAndUpdate`, so the stored
submission is unchanged. -/
theorem c2_update_submission_inverted_check :
    mainStore.testCases.find? (fun t => decide (t.testCaseId = "tc1")) = some tc1Doc ∧
    SubmissionDao.updateSubmission mainStore c2Patch =
      .error (.testCaseNotFound "tc1") ∧
    SubmissionDao.updateSubmission mainStore c2PatchMissing = .error .nullDereference ∧
    (SubmissionDao.addSubmission mainStore c2Patch 99).isOk = true := by decide

/-- C3 (code bug): `getContestListCount` returns the size of the whole
contest collection — `estimatedDocumentCount()` ignores the composed
conditions — while the count the spec describes (matching documents under
the filter and the `asUser` visibility condition) is different on a store
holding one contest organized by alice and one private contest organized by
bob, when filtering for organizer alice as user alice. -/
theorem c3_count_ignores_conditions :
    ContestDao.getContestListCount mainStore c3Opts (some "alice") = 2 ∧
    contestListCountSpec mainStore c3Opts (some "alice") = 1 := by decide

/-- C4 (code bug): a submission-time range `[null, 10]` matches nothing
because `filterQuery` keys the range condition on the field name
`creationDate`, which submission documents do not carry: the store holds a
submission with `submissionTime` 5, yet the list operation returns the empty
list, while the documents whose `submissionTime` is ≤ 10 — what the claim
describes — are exactly that submission. -/
theorem c4_submission_range_on_missing_field :
    SubmissionDao.getSubmissionListDocs mainStore c4Opts none = .ok [] ∧
    mainStore.submissions.filter (fun d => decide (d.submissionTime ≤ 10)) = [sub1Doc] ∧
    sub1Doc.submissionTime = 5 := by decide

/-- C1 (counterexample): a submission authored by bob matches the default
filter and has author == asUser, yet `getSubmissionList` as user "bob"
produces no result list at all — the merged `$subquery` condition is an
operator no layer implements, so the query rejects with that error. -/
theorem c1_counterexample_submission_aslist_errors :
    sub1Doc ∈ mainStore.submissions ∧
    submissionMatches defaultSubmissionFilterOptions sub1Doc = true ∧
    sub1Doc.authorUsername = "bob" ∧
    SubmissionDao.getSubmissionListDocs mainStore defaultSubmissionFilterOptions
      (some "bob") = .error (.unknownQueryOperator "$subquery") := by decide

/-- C1 (amended): with `asUser` and no pagination, `getContestList` and
`getCollectionList` return exactly the documents matching the filter and
satisfying "organizer/owner == asUser OR isPublic" (and under arbitrary
pagination every result still satisfies it); `getSubmissionList`, however,
rejects with the unknown-operator error whenever `asUser` is supplied — the
`$subquery` condition it merges is implemented by no layer — and so never
returns any submission list under `asUser`. -/
theorem c1_aslist_visibility_amended :
    (∀ (s : Store) (o : ContestFilterOptions) (u : String) (d : ContestDoc),
        o.startIndex = 0 → o.itemCount = none →
        (d ∈ ContestDao.getContestListDocs s o (some u) ↔
          (d ∈ s.contests ∧ contestMatches o d = true ∧
            (d.organizerUsername = u ∨ d.isPublic = true))))
  ∧ (∀ (s : Store) (o : ContestFilterOptions) (u : String) (d : ContestDoc),
        d ∈ ContestDao.getContestListDocs s o (some u) →
        (d.organizerUsername = u ∨ d.isPublic = true))
  ∧ (∀ (s : Store) (o : CollectionFilterOptions) (u : String) (d : CollectionDoc),
        o.startIndex = 0 → o.itemCount = none →
        (d ∈ CollectionDao.getCollectionListDocs s o (some u) ↔
          (d ∈ s.collections ∧ collectionMatches o d = true ∧
            (d.ownerUsername = u ∨ d.isPublic = true))))
  ∧ (∀ (s : Store) (o : CollectionFilterOptions) (u : String) (d : CollectionDoc),
        d ∈ CollectionDao.getCollectionListDocs s o (some u) →
        (d.ownerUsername = u ∨ d.isPublic = true))
  ∧ (∀ (s : Store) (o : SubmissionFilterOptions) (u : String),
        SubmissionDao.getSubmissionListDocs s o (some u) =
          .error (.unknownQueryOperator "$subquery"))
  ∧ (∀ (s : Store) (o : SubmissionFilterOptions) (u : String)
        (l : List SubmissionDoc),
        SubmissionDao.getSubmissionListDocs s o (some u) ≠ .ok l) := by
  refine ⟨?_, ?_, ?_, ?_, ?_, ?_⟩
  · intro s o u d h0 h1
    unfold ContestDao.getContestListDocs
    rw [h0, h1, mem_applySortSkipLimit_iff, List.mem_filter]
    simp [contestVisibleTo, and_assoc]
  · intro s o u d hmem
    unfold ContestDao.getContestListDocs at hmem
    have h2 := mem_of_mem_applySortSkipLimit _ _ _ _ _ _ hmem
    rw [List.mem_filter] at h2
    have h3 := h2.2
    simp [contestVisibleTo] at h3
    exact h3.2
  · intro s o u d h0 h1
    unfold CollectionDao.getCollectionListDocs
    rw [h0, h1, mem_applySortSkipLimit_iff, List.mem_filter]
    simp [collectionVisibleTo, and_assoc]
  · intro s o u d hmem
    unfold CollectionDao.getCollectionListDocs at hmem
    have h2 := mem_of_mem_applySortSkipLimit _ _ _ _ _ _ hmem
    rw [List.mem_filter] at h2
    have h3 := h2.2
    simp [collectionVisibleTo] at h3
    exact h3.2
  · intro s o u
    rfl
  · intro s o u l hcon
    cases hcon

/-- Witness for the amended C1 at a concrete input: alice sees her own
private contest in the filtered list. -/
theorem c1_aslist_visibility_amended_witness :
    c1Doc ∈ ContestDao.getContestListDocs mainStore defaultContestFilterOptions
      (some "alice") :=
  (c1_aslist_visibility_amended.1 mainStore defaultContestFilterOptions "alice" c1Doc
    rfl rfl).mpr (by decide)

/-- C5 (counterexample): `getContest` with `includeProblems` returns the
nested problem of contest `c1` still carrying a `testCases` field (a list of
unpopulated stubs), contrary to the claim that nested problems carry no
`testCases` field. -/
theorem c5_counterexample_nested_testcases :
    ((ContestDao.getContest mainStore "c1" ⟨true, false, false⟩).bind
      ContestView.problems).map (fun l => l.map (fun p => p.testCases)) =
      some [some [⟨none, none, none, none, none⟩]] := by decide

/-- C5 (amended): `getContest` with all expand flags false returns a view
whose `problems`, `participants` and `announcements` fields are all absent;
with only `includeProblems` it returns the problems and still omits the
other two — but each nested Problem retains a `testCases` field (holding
unpopulated test-case stubs); only the Submission expander strips it. -/
theorem c5_expansion_stripping_amended (s : Store) (contestId : String) :
    (∀ v, ContestDao.getContest s contestId defaultGetContestOptions = some v →
      v.problems = none ∧ v.participants = none ∧ v.announcements = none)
  ∧ (∀ v, ContestDao.getContest s contestId ⟨true, false, false⟩ = some v →
      v.participants = none ∧ v.announcements = none ∧ v.problems.isSome = true ∧
      (∀ l, v.problems = some l → ∀ p ∈ l, p.testCases.isSome = true)) := by
  constructor
  · intro v hv
    unfold ContestDao.getContest at hv
    obtain ⟨d, hd, hdv⟩ := Option.map_eq_some'.mp hv
    subst hdv
    exact ⟨rfl, rfl, rfl⟩
  · intro v hv
    unfold ContestDao.getContest at hv
    obtain ⟨d, hd, hdv⟩ := Option.map_eq_some'.mp hv
    subst hdv
    refine ⟨rfl, rfl, rfl, ?_⟩
    intro l hl p hp
    have hleq := Option.some.inj hl
    rw [← hleq] at hp
    obtain ⟨pd, hpd, hpv⟩ := List.mem_map.mp hp
    rw [← hpv]
    rfl

/-- Witness for the amended C5 at a concrete input: the unexpanded view of
contest `c1` has no relation fields. -/
theorem c5_expansion_stripping_amended_witness :
    ∃ v, ContestDao.getContest mainStore "c1" defaultGetContestOptions = some v ∧
      v.problems = none ∧ v.participants = none ∧ v.announcements = none := by
  obtain ⟨h1, -⟩ := c5_expansion_stripping_amended mainStore "c1"
  exact ⟨_, rfl, h1 _ rfl⟩

/-- C6 (counterexample): updating contest `c1`'s display name from "Old" to
"New" stores "New" but the call returns the pre-update view still carrying
"Old" — not the newly applied values. -/
theorem c6_counterexample_returns_stale :
    ((ContestDao.updateContest mainStore c6Patch).2.map ContestView.displayName =
      some "Old") ∧
    c6Patch.displayName = "New" ∧
    ((ContestDao.updateContest mainStore c6Patch).1.contests.map ContestDoc.displayName =
      ["New", "C Two"]) := by decide

/-- C6 (amended): `updateContest` on a missing id returns null and changes
nothing; on an existing contest it applies the patch's mutable fields to the
store (identity fields kept) but returns the expanded PRE-update entity —
`findOneAndUpdate` without `new: true` resolves the document as it was
before the update. -/
theorem c6_update_applies_but_returns_preupdate (s : Store) (b : ContestBase) :
    (s.contests.find? (fun d => decide (d.contestId = b.contestId)) = none →
      ContestDao.updateContest s b = (s, none))
  ∧ (∀ d, s.contests.find? (fun d2 => decide (d2.contestId = b.contestId)) = some d →
      (ContestDao.updateContest s b).2 =
        some (documentToContest s d defaultGetContestOptions) ∧
      (documentToContest s d defaultGetContestOptions).displayName = d.displayName ∧
      (∃ d2, (ContestDao.updateContest s b).1.contests.find?
          (fun x => decide (x.contestId = b.contestId)) = some d2 ∧
        d2.contestId = d.contestId ∧ d2.organizer = d.organizer ∧
        d2.organizerUsername = d.organizerUsername ∧ d2.displayName = b.displayName ∧
        d2.format = b.format ∧ d2.startTime = b.startTime ∧ d2.duration = b.duration ∧
        d2.description = b.description ∧ d2.isPublic = b.isPublic) ∧
      (∀ x ∈ s.contests, decide (x.contestId = b.contestId) = false →
        x ∈ (ContestDao.updateContest s b).1.contests)) := by
  constructor
  · intro hnone
    unfold ContestDao.updateContest
    rw [hnone]
  · intro d hd
    have hpd := List.find?_some hd
    have hfind := find?_replaceFirst (fun x => decide (x.contestId = b.contestId))
      (⟨d.oid, d.contestId, d.organizer, d.organizerUsername, b.displayName, b.format,
        b.startTime, b.duration, b.description, b.isPublic, d.problems,
        d.participants⟩ : ContestDoc) d s.contests hd hpd
    refine ⟨?_, rfl, ⟨(⟨d.oid, d.contestId, d.organizer, d.organizerUsername,
      b.displayName, b.format, b.startTime, b.duration, b.description, b.isPublic,
      d.problems, d.participants⟩ : ContestDoc), ?_, rfl, rfl, rfl, rfl, rfl, rfl,
      rfl, rfl, rfl⟩, ?_⟩
    · unfold ContestDao.updateContest
      rw [hd]
    · show List.find? _ (ContestDao.updateContest s b).1.contests = some _
      unfold ContestDao.updateContest
      rw [hd]
      exact hfind
    · intro x hx hne
      unfold ContestDao.updateContest
      rw [hd]
      exact mem_replaceFirst_of_ne _ _ _ _ hne hx

/-- Witness for the amended C6 at a concrete input: the stored contest takes
the patched display name while keeping its organizer. -/
theorem c6_update_applies_but_returns_preupdate_witness :
    (ContestDao.updateContest mainStore c6Patch).2 =
      some (documentToContest mainStore c1Doc defaultGetContestOptions) ∧
    ∃ d2, (ContestDao.updateContest mainStore c6Patch).1.contests.find?
        (fun x => decide (x.contestId = c6Patch.contestId)) = some d2 ∧
      d2.displayName = "New" ∧ d2.organizerUsername = "alice" := by
  obtain ⟨h1, -, ⟨d2, hfind, -, -, horg, hdisp, -, -, -, -, -⟩, -⟩ :=
    (c6_update_applies_but_returns_preupdate mainStore c6Patch).2 c1Doc rfl
  exact ⟨h1, d2, hfind, hdisp.trans rfl, horg.trans rfl⟩

/-- C9 (counterexample): with default options, `getCollectionList` returns
the newer collection ("B", creation date 2) before the older one ("A",
creation date 1), which is not ascending display-name order. -/
theorem c9_counterexample_collection_default_order :
    (CollectionDao.getCollectionListDocs mainStore defaultCollectionFilterOptions
      none).map CollectionDoc.displayName = ["B", "A"] ∧
    colADoc.displayName < colBDoc.displayName := by
  refine ⟨by decide, ?_⟩
  rw [String.lt_iff_toList_lt]
  decide

/-- C9 (amended): with the default (absent) sort directives, contests are
returned newest-first by `startTime`, submissions newest-first by
`submissionTime`, and collections newest-first by `creationDate` (not
ascending by display name); the Problem options default to newest-first by
`creationDate` as well (no problem list operation exists in the sources). -/
theorem c9_default_sort_newest_first :
    (∀ s : Store, List.Sorted (fun a b : ContestDoc => b.startTime ≤ a.startTime)
      (ContestDao.getContestListDocs s defaultContestFilterOptions none))
  ∧ (∀ s : Store,
      SubmissionDao.getSubmissionListDocs s defaultSubmissionFilterOptions none =
        .ok (submissionFilterQueryDocs s defaultSubmissionFilterOptions) ∧
      List.Sorted (fun a b : SubmissionDoc => b.submissionTime ≤ a.submissionTime)
      (submissionFilterQueryDocs s defaultSubmissionFilterOptions))
  ∧ (∀ s : Store, List.Sorted (fun a b : CollectionDoc => b.creationDate ≤ a.creationDate)
      (CollectionDao.getCollectionListDocs s defaultCollectionFilterOptions none))
  ∧ defaultProblemFilterOptions.sortFields = some [⟨"creationDate", false⟩] := by
  refine ⟨?_, ?_, ?_, rfl⟩
  · intro s
    exact sorted_singleDirective_desc contestFieldVal "startTime" ContestDoc.startTime
      (fun x => rfl) _
  · intro s
    refine ⟨rfl, ?_⟩
    exact sorted_singleDirective_desc submissionFieldVal "submissionTime"
      SubmissionDoc.submissionTime (fun x => rfl) _
  · intro s
    exact sorted_singleDirective_desc collectionFieldVal "creationDate"
      CollectionDoc.creationDate (fun x => rfl) _
